import Mathlib

/-!
Verification of the `nose_mongoengine` plugin (`nose_mongoengine/__init__.py`)
against its natural-language specification, via a shallow embedding.

The plugin is a nose test-runner plugin that starts a throwaway `mongod`
process for a test run (`MongoEnginePlugin.configure`), optionally drops the
collections of the test database at module/class scope boundaries
(`MongoEnginePlugin.stopContext`), and tears the instance down at the end of
the run (`MongoEnginePlugin.finalize`).

The embedding models the operating system as explicit oracle records (`Sys`,
`FinSys`, `CleanSys`) holding the results of the external calls the code
makes (path scanning, path expansion, port allocation, `mkdtemp`, process
spawn, connect, ...), and a `World` record holding the mutable ambient state
the code touches (`os.environ`, the set of live spawned processes, the set of
existing temp directories, the open cleanup connections and the spawn calls
issued).  Python exceptions are modelled by an `Option PyError` component in
each operation's result: `some e` means the operation raised `e`, with the
first two components giving the plugin state and world at the moment of the
raise (Python mutations performed before the raise are kept).
-/

/-- `string.ascii_uppercase + string.digits` (line 171 of the source). -/
def char_set : List Char := "ABCDEFGHIJKLMNOPQRSTUVWXYZ0123456789".toList

theorem char_set_length : char_set.length = 36 := by decide

/-- Look up a character of `char_set` by index. -/
def sampleChar (j : Fin 36) : Char :=
  char_set.get (Fin.cast char_set_length.symm j)

/-- Join a selection of population indices into the name string, as
`''.join(...)` does on line 172. -/
def joinSample (f : Fin 10 → Fin 36) : String :=
  String.mk ((List.finRange 10).map (fun i => sampleChar (f i)))

/--
`random.sample(char_set, 10)` (line 172) draws 10 elements from 10 distinct
positions of the 36-character population, preserving selection order, so its
possible outcomes are exactly the injections from `Fin 10` into the
population's index set `Fin 36`.  One concrete run of the generator is the
image of one such injection; `''.join(...)` turns the drawn characters into
the database-name string `self.mongo_database`.
-/
def mongo_database (r : Fin 10 ↪ Fin 36) : String :=
  joinSample r

/-- The set of database names the generator on line 172 can produce: the
image of `joinSample` over all injective index selections. -/
def possibleNames : Finset String :=
  (Finset.univ.filter (fun f : Fin 10 → Fin 36 => Function.Injective f)).image joinSample

/-- A concrete sample outcome: positions 0..9, giving name "ABCDEFGHIJ". -/
def sample0 : Fin 10 ↪ Fin 36 :=
  ⟨Fin.castLE (by omega), Fin.castLE_injective _⟩

example : mongo_database sample0 = "ABCDEFGHIJ" := by decide

theorem char_set_nodup : char_set.Nodup := by decide

theorem sampleChar_injective : Function.Injective sampleChar := by decide

theorem sampleChar_mem (j : Fin 36) : sampleChar j ∈ char_set :=
  List.get_mem _ _ _

theorem mongo_database_data (r : Fin 10 ↪ Fin 36) :
    (mongo_database r).data = (List.finRange 10).map (fun i => sampleChar (r i)) := rfl

theorem joinSample_injective : Function.Injective joinSample := by
  intro f g h
  have hd : (List.finRange 10).map (fun i => sampleChar (f i)) =
      (List.finRange 10).map (fun i => sampleChar (g i)) :=
    congrArg String.data h
  funext i
  have hi : i ∈ List.finRange 10 := List.mem_finRange i
  exact sampleChar_injective (List.map_eq_map_iff.mp hd i hi)

set_option maxRecDepth 8000 in
theorem mongo_database_mem_possibleNames (r : Fin 10 ↪ Fin 36) :
    mongo_database r ∈ possibleNames := by
  rw [possibleNames, Finset.mem_image]
  exact ⟨r, Finset.mem_filter.mpr ⟨Finset.mem_univ _, r.injective⟩, rfl⟩

set_option maxRecDepth 8000 in
theorem possibleNames_card : possibleNames.card = Nat.descFactorial 36 10 := by
  rw [possibleNames, Finset.card_image_of_injective _ joinSample_injective,
    ← Fintype.card_subtype]
  rw [Fintype.card_congr (Equiv.subtypeInjectiveEquivEmbedding (Fin 10) (Fin 36)),
    Fintype.card_embedding_eq, Fintype.card_fin, Fintype.card_fin]

/-- C6 counterexample: the database-name generator does NOT draw from a space
of at least `36 ^ 10` combinations.  `random.sample` samples without
replacement, so the number of distinct names it can produce is the falling
factorial `36 * 35 * ... * 27`, which is strictly below `36 ^ 10`. -/
theorem C6_counterexample : possibleNames.card < 36 ^ 10 := by
  rw [possibleNames_card]
  decide

/-- C6 (amended): the database-name generator draws from a random space of
exactly `36 * 35 * ... * 27 = 922393263052800` combinations (the number of
10-permutations of the 36-character alphabet), which is at least `36 ^ 9` but
less than `36 ^ 10`. -/
theorem C6_amended_card :
    possibleNames.card = 922393263052800 ∧ 36 ^ 9 ≤ possibleNames.card := by
  rw [possibleNames_card]
  constructor
  · decide
  · decide

/-- C9: every generated logical database name is non-empty, has length
exactly 10, and every one of its characters belongs to the configured
alphabet (uppercase ASCII letters and digits). -/
theorem C9_name_shape (r : Fin 10 ↪ Fin 36) :
    mongo_database r ≠ "" ∧ (mongo_database r).length = 10 ∧
      ∀ c ∈ (mongo_database r).data, c ∈ char_set := by
  have hlen : (mongo_database r).length = 10 := by
    show (mongo_database r).data.length = 10
    rw [mongo_database_data, List.length_map, List.length_finRange]
  refine ⟨?_, hlen, ?_⟩
  · intro h
    rw [h] at hlen
    exact absurd hlen (by decide)
  · intro c hc
    rw [mongo_database_data] at hc
    obtain ⟨i, _, rfl⟩ := List.mem_map.mp hc
    exact sampleChar_mem _

/-- C9 witness at a concrete sample outcome. -/
theorem C9_name_shape_witness :
    mongo_database sample0 ≠ "" ∧ (mongo_database sample0).length = 10 ∧
      'A' ∈ char_set :=
  ⟨(C9_name_shape sample0).1, (C9_name_shape sample0).2.1,
    (C9_name_shape sample0).2.2 'A' (by decide)⟩

/-- C10: every generated logical database name consists of pairwise-distinct
characters, because `random.sample` draws from the 36-character alphabet
without replacement. -/
theorem C10_name_nodup (r : Fin 10 ↪ Fin 36) :
    (mongo_database r).data.Nodup := by
  rw [mongo_database_data]
  exact List.Nodup.map (sampleChar_injective.comp r.injective) (List.nodup_finRange 10)

/-! ## The lifecycle embedding

`MongoEnginePlugin.configure` / `stopContext` / `finalize`, with the
operating system modelled by oracle records and the ambient mutable state by
an explicit `World`. -/

/-- Python exceptions raised (or raisable) by the code under `src/`. -/
inductive PyError
  | assertionError (msg : String)
  | keyError
  | osError
  | connectionFailure
  | operationFailure
  | otherError
deriving DecidableEq

/-- What a child process's stdout/stderr is wired to in a `Popen` call.
`pipe` is `subprocess.PIPE` (the parent holds the read end), `toStdout` is
`subprocess.STDOUT` (merge stderr into stdout), `devnull` is a discard sink. -/
inductive StdStream
  | pipe
  | toStdout
  | devnull
deriving DecidableEq

/-- One `subprocess.Popen` invocation: argument vector and stream wiring. -/
structure SpawnCall where
  args : List String
  stdout : StdStream
  stderr : StdStream
deriving DecidableEq

/-- The ambient mutable state touched by the plugin: `os.environ`, the live
spawned processes (by pid), the existing temp directories, the `Popen` calls
issued, and the number of currently open cleanup connections. -/
structure World where
  env : List (String × String)
  processes : List Nat
  dirs : List String
  spawns : List SpawnCall
  openConns : Nat
deriving DecidableEq

/-- `del os.environ[k]` (the KeyError on a missing key is handled at the
call sites, which check presence first). -/
def envDel : List (String × String) → String → List (String × String)
  | [], _ => []
  | p :: t, k => if p.1 = k then envDel t k else p :: envDel t k

/-- `os.environ[k] = v`. -/
def envSet (env : List (String × String)) (k v : String) : List (String × String) :=
  envDel env k ++ [(k, v)]

/-- `os.environ.get(k)`. -/
def envGet : List (String × String) → String → Option String
  | [], _ => none
  | p :: t, k => if p.1 = k then some p.2 else envGet t k

/-- Results of the external calls `configure` makes, fixed per run:
path expansion and existence, the log-file open, the OS-assigned port,
`tempfile.mkdtemp`, the spawned pid, whether `Popen` itself succeeds, whether
the `mongoengine.connect` on line 226 succeeds, and the `random.sample`
outcome. -/
structure Sys where
  path_exists : String → Bool
  abspath : String → String
  expanduser : String → String
  expandvars : String → String
  open_ok : String → Bool
  os_assigned_port : Nat
  mkdtemp : String
  new_pid : Nat
  popen_ok : Bool
  connect_ok : Bool
  sample : Fin 10 ↪ Fin 36

/-- `os.path.exists`: true for paths the oracle knows plus directories
created during the run. -/
def os_path_exists (sys : Sys) (w : World) (p : String) : Bool :=
  sys.path_exists p || w.dirs.contains p

/-- `os.path.join` for a relative second component, as used by `scan_path`. -/
def os_path_join (a b : String) : String :=
  if a == "" then b
  else if a.data.getLast? == some '/' then a ++ b
  else a ++ "/" ++ b

/-- Python's `str.split(":")` on the character list (`"".split(":")` is
`[""]`). -/
def splitColon : List Char → List (List Char)
  | [] => [[]]
  | c :: rest =>
    match splitColon rest with
    | [] => if c == ':' then [[], []] else [[c]]
    | h :: t => if c == ':' then [] :: h :: t else (c :: h) :: t

/-- Python's `str.split(":")`. -/
def pySplitColon (s : String) : List String :=
  (splitColon s.data).map String.mk

/-- `scan_path` (lines 33-40): walk the `PATH` entries in order and return
the first directory containing the executable. -/
def scan_path (sys : Sys) (w : World) (executable : String) : Option String :=
  (pySplitColon ((envGet w.env "PATH").getD "")).findSome? (fun p =>
    let p2 := sys.abspath p
    let executable_path := os_path_join p2 executable
    if os_path_exists sys w executable_path then some executable_path else none)

/-- `get_open_port` (lines 43-52): bind a transient socket to port 0 and
return the OS-assigned port. -/
def get_open_port (sys : Sys) : Nat :=
  sys.os_assigned_port

/-- The command-line options relevant to the plugin (lines 70-123), after
parsing.  `mongodb_bin = none` models the `None` default. -/
structure Options where
  mongoengine : Bool
  mongodb_bin : Option String
  mongoengine_clear_after_module : Bool
  mongoengine_clear_after_class : Bool
  mongodb_port : Nat
  mongodb_scripting : Bool
  mongodb_logpath : String
  mongodb_prealloc : Bool
deriving DecidableEq

/-- Python truthiness of an optional-string option (`None` and `""` are
falsy). -/
def pyTruthy : Option String → Bool
  | none => false
  | some s => s != ""

/-- The instance attributes of `MongoEnginePlugin` (lines 60-68, plus the
attributes first assigned inside `configure`).  Defaults are the `__init__`
values. -/
structure PluginState where
  mongodb_bin : Option String := none
  db_port : Option Nat := none
  db_path : Option String := none
  db_log_path : Option String := none
  process : Option Nat := none
  _running : Bool := false
  _enabled : Bool := false
  enabled : Bool := false
  mongo_database : Option String := none
  clear_after_module : Bool := false
  clear_after_class : Bool := false
  db_prealloc : Bool := false
  db_scripting : Bool := false
deriving DecidableEq

/-- The `mongod` argument vector built on lines 183-210. -/
def build_args (s : PluginState) : List String :=
  let args := [s.mongodb_bin.getD "", "--dbpath", s.db_path.getD "",
    "--port", toString (s.db_port.getD 0), "--quiet", "--nohttpinterface",
    "--nounixsocket", "--smallfiles", "--nojournal", "--logpath",
    s.db_log_path.getD "", "-vvvvvvvvvvv"]
  let args := if !s.db_prealloc then args ++ ["--noprealloc"] else args
  if !s.db_scripting then args ++ ["--noscripting"] else args

/--
`MongoEnginePlugin.configure` (lines 125-226).  The result is the plugin
state, the world, and `some e` when a Python exception `e` propagates out
(keeping the mutations performed before the raise).

Line 130 is translated exactly as written in the source:
`if not options.mongoengine or options.mongodb_bin: return` — so a supplied
`--mongoengine-mongodb-bin` makes `configure` return immediately, and the
explicit-path branch on lines 140-145 is unreachable.
-/
def configure (sys : Sys) (options : Options) (s0 : PluginState) (w0 : World) :
    PluginState × World × Option PyError :=
  -- line 130
  if !options.mongoengine || pyTruthy options.mongodb_bin then (s0, w0, none) else
  -- lines 133-145: resolve the binary (assignment happens before the check,
  -- so `self.mongodb_bin` is set even on the failing paths)
  let binRes : Option String × Option PyError :=
    if !pyTruthy options.mongodb_bin then
      match scan_path sys w0 "mongod" with
      | none => (none, some (PyError.assertionError
          "Mongodb plugin enabled, but no mongod on path, please specify path to binary ie. --mongodb=/path/to/mongod"))
      | some b => (some b, none)
    else
      let b := sys.abspath (sys.expanduser (sys.expandvars (options.mongodb_bin.getD "")))
      if !os_path_exists sys w0 b then
        (some b, some (PyError.assertionError ("Invalid mongodb binary " ++ b)))
      else (some b, none)
  let s1 : PluginState := { s0 with mongodb_bin := binRes.1 }
  match binRes.2 with
  | some e => (s1, w0, some e)
  | none =>
    -- lines 147-150
    let s2 := { s1 with _enabled := true, enabled := true }
    -- lines 152-158: expand and probe the log path
    let logpath := sys.expandvars (sys.expanduser options.mongodb_logpath)
    let s3 := { s2 with db_log_path := some logpath }
    if !sys.open_ok logpath then
      (s3, w0, some (PyError.assertionError "Invalid log path"))
    else
    -- lines 160-163
    let port := if options.mongodb_port == 0 then get_open_port sys else options.mongodb_port
    let s4 := { s3 with db_port := some port }
    -- lines 164-168
    let s5 := { s4 with db_prealloc := options.mongodb_prealloc,
                        db_scripting := options.mongodb_scripting,
                        clear_after_module := options.mongoengine_clear_after_module,
                        clear_after_class := options.mongoengine_clear_after_class }
    -- lines 170-172: generate random database name
    let s6 := { s5 with mongo_database := some (mongo_database sys.sample) }
    -- lines 178-181: `tempfile.mkdtemp` creates the directory; the
    -- `os.mkdir` guard never fires because the directory now exists
    let s7 := { s6 with db_path := some sys.mkdtemp }
    let w1 : World := { w0 with dirs := sys.mkdtemp :: w0.dirs }
    let w2 := if !os_path_exists sys w1 sys.mkdtemp then
        { w1 with dirs := sys.mkdtemp :: w1.dirs } else w1
    -- lines 183-210
    let args := build_args s7
    -- lines 212-216: Popen with stdout=subprocess.PIPE, stderr=subprocess.STDOUT
    if !sys.popen_ok then (s7, w2, some PyError.osError) else
    let call : SpawnCall := { args := args, stdout := StdStream.pipe, stderr := StdStream.toStdout }
    let w3 := { w2 with
      processes := w2.processes ++ [sys.new_pid],
      spawns := w2.spawns ++ [call] }
    let s8 := { s7 with process := some sys.new_pid, _running := true }
    -- lines 218-220: running flag, then publish the connection info
    let env1 := envSet w3.env "TEST_MONGODB" ("localhost:" ++ toString (s8.db_port.getD 0))
    let env2 := envSet env1 "TEST_MONGODB_DATABASE" (mongo_database sys.sample)
    let w4 := { w3 with env := env2 }
    -- line 223: time.sleep(0.3); line 226: connect via mongoengine
    if !sys.connect_ok then (s8, w4, some PyError.connectionFailure) else
    (s8, w4, none)

/-- Oracle for `finalize`: the platform check on line 270 and whether each
teardown call raises.  `terminate_raises` covers both `kill()` (darwin) and
`terminate()` (elsewhere), e.g. signalling an already-reaped process. -/
structure FinSys where
  platform_darwin : Bool
  terminate_raises : Bool
  wait_raises : Bool
  rmtree_raises : Bool
deriving DecidableEq

/--
`MongoEnginePlugin.finalize` (lines 259-278).  The source has no exception
handling, so a raise in any step propagates immediately and the following
steps do not run.
-/
def finalize (sys : FinSys) (s : PluginState) (w : World) :
    PluginState × World × Option PyError :=
  -- lines 262-263
  if !s._running then (s, w, none) else
  -- line 266: `del os.environ["TEST_MONGODB"]` (KeyError when absent)
  match envGet w.env "TEST_MONGODB" with
  | none => (s, w, some PyError.keyError)
  | some _ =>
    let w1 : World := { w with env := envDel w.env "TEST_MONGODB" }
    -- line 267: `del os.environ["TEST_MONGODB_DATABASE"]`
    match envGet w1.env "TEST_MONGODB_DATABASE" with
    | none => (s, w1, some PyError.keyError)
    | some _ =>
      let w2 := { w1 with env := envDel w1.env "TEST_MONGODB_DATABASE" }
      -- lines 270-273: kill on darwin, terminate elsewhere
      if sys.terminate_raises then (s, w2, some PyError.osError) else
      -- line 274: wait() reaps the process
      if sys.wait_raises then (s, w2, some PyError.osError) else
      let w3 := { w2 with processes := w2.processes.filter (fun p => p != s.process.getD 0) }
      -- line 277: shutil.rmtree(self.db_path)
      if sys.rmtree_raises then (s, w3, some PyError.osError) else
      let w4 := { w3 with dirs := w3.dirs.filter (fun d => d != s.db_path.getD "") }
      -- line 278
      ({ s with _running := false }, w4, none)

/-- Outcome of one `d.drop_collection(col)` call (lines 241-243): success,
an `OperationFailure` (swallowed by the `except` clause), or any other
exception (propagates). -/
inductive DropOutcome
  | ok
  | opFailure
  | raises
deriving DecidableEq

/-- Oracle for one scope-boundary cleanup: whether `Connection(...)` itself
succeeds, whether `d.collection_names()` succeeds, its result, and the
outcome of each drop. -/
structure CleanSys where
  conn_ok : Bool
  list_ok : Bool
  collection_names : List String
  drop : String → DropOutcome

/-- The kind of nose context handed to `stopContext`: `inspect.ismodule` /
`inspect.isclass` discriminate these. -/
inductive ContextKind
  | module
  | cls
  | other
deriving DecidableEq

def ismodule : ContextKind → Bool
  | ContextKind.module => true
  | _ => false

def isclass : ContextKind → Bool
  | ContextKind.cls => true
  | _ => false

/-- The `for col in d.collection_names(): try drop except OperationFailure`
loop (lines 236-243): `opFailure` is swallowed, any other raise propagates. -/
def dropLoop (drop : String → DropOutcome) : List String → Option PyError
  | [] => none
  | col :: rest =>
    match drop col with
    | DropOutcome.ok => dropLoop drop rest
    | DropOutcome.opFailure => dropLoop drop rest
    | DropOutcome.raises => some PyError.otherError

/-- One cleanup block of `stopContext` (lines 234-244 = lines 247-257):
open a connection, enumerate, drop each collection, close.  `c.close()` is
only reached when neither the enumeration nor a drop raised a
non-`OperationFailure` exception. -/
def cleanBlock (sys : CleanSys) (w : World) : World × Option PyError :=
  if !sys.conn_ok then (w, some PyError.otherError) else
  let w1 : World := { w with openConns := w.openConns + 1 }
  if !sys.list_ok then (w1, some PyError.otherError) else
  match dropLoop sys.drop sys.collection_names with
  | some e => (w1, some e)
  | none => ({ w1 with openConns := w1.openConns - 1 }, none)

/-- `MongoEnginePlugin.stopContext` (lines 228-257): the module-scope block,
then — if it did not raise — the class-scope block. -/
def stopContext (sys : CleanSys) (s : PluginState) (context : ContextKind) (w : World) :
    World × Option PyError :=
  if s.clear_after_module && ismodule context then
    match cleanBlock sys w with
    | (w1, some e) => (w1, some e)
    | (w1, none) =>
      if s.clear_after_class && isclass context then cleanBlock sys w1 else (w1, none)
  else if s.clear_after_class && isclass context then cleanBlock sys w
  else (w, none)

/-! ## Concrete fixtures for closed evaluations -/

/-- A fresh world: empty environment, no processes, no temp dirs. -/
def world0 : World := { env := [], processes := [], dirs := [], spawns := [], openConns := 0 }

/-- The plugin state right after `__init__`. -/
def initState : PluginState := {}

/-- A fully healthy operating system: every path exists, expansions are the
identity, the log opens, spawn and connect succeed. -/
def sysOk : Sys where
  path_exists := fun _ => true
  abspath := id
  expanduser := id
  expandvars := id
  open_ok := fun _ => true
  os_assigned_port := 27900
  mkdtemp := "/tmp/tmpXYZ"
  new_pid := 4242
  popen_ok := true
  connect_ok := true
  sample := sample0

/-- Same system, but the `connect` on line 226 raises. -/
def sysConnFail : Sys := { sysOk with connect_ok := false }

/-- All command-line options at their parser defaults (plugin disabled). -/
def optsDefault : Options where
  mongoengine := false
  mongodb_bin := none
  mongoengine_clear_after_module := false
  mongoengine_clear_after_class := false
  mongodb_port := 0
  mongodb_scripting := false
  mongodb_logpath := "/dev/null"
  mongodb_prealloc := false

/-- `--mongoengine` supplied, binary left to auto-discovery. -/
def optsEnabled : Options := { optsDefault with mongoengine := true }

/-- `--mongoengine --mongoengine-mongodb-bin /usr/local/bin/mongod`. -/
def optsExplicitBin : Options :=
  { optsEnabled with mongodb_bin := some "/usr/local/bin/mongod" }

/-- C1: supplying an explicit server-binary path does NOT make `configure`
use it — line 130 (`if not options.mongoengine or options.mongodb_bin:
return`) returns as soon as `mongodb_bin` is truthy, so with the plugin
enabled and a valid explicit binary the plugin is silently disabled: no
state change, no validation, no spawn, `_enabled` stays false.  The
explicit-path branch on lines 140-145 is dead code; the intent documented by
that branch and by the option help text is what the claim states, so this is
a bug in line 130. -/
theorem C1_explicit_bin_disables_plugin :
    configure sysOk optsExplicitBin initState world0 = (initState, world0, none) ∧
      (configure sysOk optsExplicitBin initState world0).2.1.spawns = [] ∧
      (configure sysOk optsExplicitBin initState world0).1._enabled = false := by
  decide

/-- C4: the spawn performed by `configure` merges stderr into stdout
(`stderr=subprocess.STDOUT`) but does NOT discard the merged stream: it is
`stdout=subprocess.PIPE`, a pipe whose read end the plugin holds and never
reads (no other line of the source touches `self.process.stdout`), so a full
pipe buffer can block the child.  The comment on line 189 ("we're not
reading it") documents the intent of discarding; passing `PIPE` contradicts
it. -/
theorem C4_spawn_holds_pipe :
    (configure sysOk optsEnabled initState world0).2.1.spawns.map
        (fun c => (c.stdout, c.stderr)) = [(StdStream.pipe, StdStream.toStdout)] := by
  decide

/-- C2 counterexample: a run in which the process spawns but the initial
connection (line 226) raises.  The error propagates out of `configure` while
the spawned process is still alive and the temp data directory still exists:
nothing on lines 212-226 cleans up. -/
theorem C2_counterexample :
    (configure sysConnFail optsEnabled initState world0).2.2 = some PyError.connectionFailure ∧
      (configure sysConnFail optsEnabled initState world0).2.1.processes = [4242] ∧
      (configure sysConnFail optsEnabled initState world0).2.1.dirs = ["/tmp/tmpXYZ"] := by
  decide

/-- C5 counterexample: after a `start` that fails partway (spawn succeeds,
the line-226 connect raises), the published connection info is still
present — `os.environ` was written on lines 219-220, before the failing
step, and is not retracted on the error path. -/
theorem C5_counterexample :
    (configure sysConnFail optsEnabled initState world0).2.2 ≠ none ∧
      envGet (configure sysConnFail optsEnabled initState world0).2.1.env
        "TEST_MONGODB" = some "localhost:27900" ∧
      envGet (configure sysConnFail optsEnabled initState world0).2.1.env
        "TEST_MONGODB_DATABASE" = some "ABCDEFGHIJ" := by
  decide

/-- The plugin state after a successful `configure` run on the healthy
system. -/
def stateRunning : PluginState := (configure sysOk optsEnabled initState world0).1

/-- The world after that successful `configure` run. -/
def worldRunning : World := (configure sysOk optsEnabled initState world0).2.1

/-- Teardown oracle in which every step succeeds (non-darwin platform). -/
def finSys0 : FinSys where
  platform_darwin := false
  terminate_raises := false
  wait_raises := false
  rmtree_raises := false

/-- Teardown oracle in which the terminate/kill call on lines 270-273
raises (e.g. the process is already dead and reaped). -/
def finSysTermRaises : FinSys := { finSys0 with terminate_raises := true }

/-- `--mongoengine-clear-after-module` set on the plugin state. -/
def stateClearModule : PluginState := { initState with clear_after_module := true }

/-- A cleanup world in which dropping the single collection "a" raises a
non-`OperationFailure` exception. -/
def cleanSysRaise : CleanSys where
  conn_ok := true
  list_ok := true
  collection_names := ["a"]
  drop := fun _ => DropOutcome.raises

/-- A cleanup world with collections "a", "b" and "system.indexes", where
only the system collection's drop fails, with `OperationFailure`. -/
def cleanSysSystem : CleanSys where
  conn_ok := true
  list_ok := true
  collection_names := ["a", "b", "system.indexes"]
  drop := fun col => if col == "system.indexes" then DropOutcome.opFailure else DropOutcome.ok

/-! ## Environment-lookup lemmas -/

theorem envGet_envDel_self (e : List (String × String)) (k : String) :
    envGet (envDel e k) k = none := by
  induction e with
  | nil => rfl
  | cons p t ih =>
    simp only [envDel]
    by_cases h : p.1 = k
    · rw [if_pos h]
      exact ih
    · rw [if_neg h]
      simp only [envGet, if_neg h]
      exact ih

theorem envGet_envDel_ne (e : List (String × String)) (k k2 : String) (h : k ≠ k2) :
    envGet (envDel e k2) k = envGet e k := by
  induction e with
  | nil => rfl
  | cons p t ih =>
    simp only [envDel, envGet]
    by_cases h2 : p.1 = k2
    · have hk : p.1 ≠ k := fun hh => h (hh ▸ h2)
      rw [if_pos h2, if_neg hk]
      exact ih
    · rw [if_neg h2]
      by_cases h1 : p.1 = k
      · simp only [envGet, if_pos h1]
      · simp only [envGet, if_neg h1]
        exact ih

theorem envGet_append (l1 l2 : List (String × String)) (k : String) :
    envGet (l1 ++ l2) k = (envGet l1 k).orElse (fun _ => envGet l2 k) := by
  induction l1 with
  | nil => rfl
  | cons p t ih =>
    simp only [List.cons_append, envGet]
    by_cases h : p.1 = k
    · simp [if_pos h, Option.orElse]
    · simp only [if_neg h]
      exact ih

theorem envGet_envSet_self (e : List (String × String)) (k v : String) :
    envGet (envSet e k v) k = some v := by
  rw [envSet, envGet_append, envGet_envDel_self]
  simp [envGet, Option.orElse]

theorem envGet_envSet_ne (e : List (String × String)) (k k2 v : String) (h : k ≠ k2) :
    envGet (envSet e k2 v) k = envGet e k := by
  rw [envSet, envGet_append, envGet_envDel_ne e k k2 h]
  have h2 : envGet [(k2, v)] k = none := by
    have hne : ¬k2 = k := fun hh => h hh.symm
    simp [envGet, hne]
  rw [h2]
  cases envGet e k <;> simp [Option.orElse]

/-! ## finalize: helper lemmas -/

/-- `finalize` on a non-running plugin returns immediately (lines 262-263). -/
theorem finalize_not_running (fsys : FinSys) (s : PluginState) (w : World)
    (h : s._running = false) : finalize fsys s w = (s, w, none) := by
  unfold finalize
  simp [h]

/-- When `finalize` does not raise, the running flag of the resulting state
is cleared. -/
theorem finalize_ok_running_false (fsys : FinSys) (s : PluginState) (w : World) :
    (finalize fsys s w).2.2 = none → (finalize fsys s w).1._running = false := by
  cases hr : s._running
  · intro _
    simp [finalize, hr]
  · cases h1 : envGet w.env "TEST_MONGODB"
    · intro hcontra
      simp [finalize, hr, h1] at hcontra
    · cases h2 : envGet (envDel w.env "TEST_MONGODB") "TEST_MONGODB_DATABASE"
      · intro hcontra
        simp [finalize, hr, h1, h2] at hcontra
      · cases hterm : fsys.terminate_raises
        · cases hwait : fsys.wait_raises
          · cases hrm : fsys.rmtree_raises
            · intro _
              simp [finalize, hr, h1, h2, hterm, hwait, hrm]
            · intro hcontra
              simp [finalize, hr, h1, h2, hterm, hwait, hrm] at hcontra
          · intro hcontra
            simp [finalize, hr, h1, h2, hterm, hwait] at hcontra
        · intro hcontra
          simp [finalize, hr, h1, h2, hterm] at hcontra

/-- C3 counterexample: with a run in progress, if the terminate call on
lines 270-273 raises, `finalize` aborts: the error propagates, the data
directory is not removed and the running flag stays set — the remaining
teardown steps are NOT performed. -/
theorem C3_counterexample :
    (finalize finSysTermRaises stateRunning worldRunning).2.2 = some PyError.osError ∧
      (finalize finSysTermRaises stateRunning worldRunning).2.1.dirs = ["/tmp/tmpXYZ"] ∧
      (finalize finSysTermRaises stateRunning worldRunning).2.1.processes = [4242] ∧
      (finalize finSysTermRaises stateRunning worldRunning).1._running = true := by
  decide

/-- C3 (amended): teardown in `finalize` is NOT best-effort: there is no
exception handling, so when an earlier teardown step raises (here: the
terminate/kill call, e.g. against an already-dead process) the error
propagates immediately and the remaining steps are skipped — the process is
not reaped, the data directory is not removed, and the running flag is not
cleared. -/
theorem C3_amended_abort (fsys : FinSys) (s : PluginState) (w : World)
    (hr : s._running = true) (ht : fsys.terminate_raises = true) :
    (finalize fsys s w).2.2 ≠ none ∧
      (finalize fsys s w).2.1.dirs = w.dirs ∧
      (finalize fsys s w).2.1.processes = w.processes ∧
      (finalize fsys s w).1._running = true := by
  unfold finalize
  simp only [hr, ht, Bool.not_true, Bool.false_eq_true, if_false]
  split
  · simp [hr]
  · split
    · simp [hr]
    · simp [hr]

/-- C3 amended, exercised at the concrete failed-teardown run. -/
theorem C3_amended_witness :
    (finalize finSysTermRaises stateRunning worldRunning).2.2 ≠ none ∧
      (finalize finSysTermRaises stateRunning worldRunning).2.1.dirs = worldRunning.dirs ∧
      (finalize finSysTermRaises stateRunning worldRunning).2.1.processes =
        worldRunning.processes ∧
      (finalize finSysTermRaises stateRunning worldRunning).1._running = true :=
  C3_amended_abort finSysTermRaises stateRunning worldRunning (by decide) (by decide)

/-- C7: calling `stop` when no run is in progress is a no-op that raises
nothing (lines 262-263), and after a `finalize` that completed without
raising, a second `finalize` is a no-op returning no error — teardown runs
only once. -/
theorem C7_stop_idempotent :
    (∀ (fsys : FinSys) (s : PluginState) (w : World), s._running = false →
        finalize fsys s w = (s, w, none)) ∧
      (∀ (fsys fsys2 : FinSys) (s : PluginState) (w : World),
        (finalize fsys s w).2.2 = none →
          finalize fsys2 (finalize fsys s w).1 (finalize fsys s w).2.1 =
            ((finalize fsys s w).1, (finalize fsys s w).2.1, none)) :=
  ⟨fun fsys s w h => finalize_not_running fsys s w h,
    fun fsys fsys2 s w h =>
      finalize_not_running fsys2 _ _ (finalize_ok_running_false fsys s w h)⟩

/-- C7 exercised concretely: `finalize` on the fresh plugin state is a
no-op, and a full stop of the running instance followed by a second stop
leaves the second one a raise-free no-op. -/
theorem C7_stop_idempotent_witness :
    finalize finSys0 initState world0 = (initState, world0, none) ∧
      finalize finSys0 (finalize finSys0 stateRunning worldRunning).1
          (finalize finSys0 stateRunning worldRunning).2.1 =
        ((finalize finSys0 stateRunning worldRunning).1,
          (finalize finSys0 stateRunning worldRunning).2.1, none) :=
  ⟨C7_stop_idempotent.1 finSys0 initState world0 (by decide),
    C7_stop_idempotent.2 finSys0 finSys0 stateRunning worldRunning (by decide)⟩

/-! ## stopContext: the cleanup connection -/

/-- When no drop raises a non-`OperationFailure` exception, the drop loop
completes without error. -/
theorem dropLoop_eq_none (drop : String → DropOutcome) (l : List String)
    (h : ∀ col ∈ l, drop col ≠ DropOutcome.raises) : dropLoop drop l = none := by
  induction l with
  | nil => rfl
  | cons c t ih =>
    have hc := h c (by simp)
    have ht : ∀ col ∈ t, drop col ≠ DropOutcome.raises :=
      fun col hcol => h col (by simp [hcol])
    cases hdc : drop c
    · simpa [dropLoop, hdc] using ih ht
    · simpa [dropLoop, hdc] using ih ht
    · exact absurd hdc hc

/-- C8 counterexample: a module-boundary cleanup in which dropping the
(non-system) collection "a" raises a non-`OperationFailure` error.  The
error is surfaced to the caller, but the cleanup connection opened on line
234 is NOT closed: `c.close()` on line 244 is never reached, and there is no
`finally` block. -/
theorem C8_counterexample :
    (stopContext cleanSysRaise stateClearModule ContextKind.module world0).2 =
        some PyError.otherError ∧
      (stopContext cleanSysRaise stateClearModule ContextKind.module world0).1.openConns = 1 := by
  decide

/-- `--mongoengine-clear-after-class` set on the plugin state. -/
def stateClearClass : PluginState := { initState with clear_after_class := true }

/-- A cleanup world in which `d.collection_names()` itself raises a
non-`OperationFailure` error. -/
def cleanSysListRaise : CleanSys where
  conn_ok := true
  list_ok := false
  collection_names := []
  drop := fun _ => DropOutcome.ok

/-- At an enabled scope boundary of either kind (module boundary with
`clear_after_module`, class boundary with `clear_after_class`) exactly one
cleanup block runs, on the incoming world. -/
theorem stopContext_eq_cleanBlock (sys : CleanSys) (s : PluginState)
    (context : ContextKind) (w : World)
    (hscope : (s.clear_after_module = true ∧ context = ContextKind.module) ∨
      (s.clear_after_class = true ∧ context = ContextKind.cls)) :
    stopContext sys s context w = cleanBlock sys w := by
  rcases hscope with ⟨hm, rfl⟩ | ⟨hc, rfl⟩
  · simp only [stopContext, hm, ismodule, isclass, Bool.and_false, Bool.true_and,
      Bool.false_eq_true, if_false]
    rcases hcb : cleanBlock sys w with ⟨w1, e⟩
    cases e <;> simp
  · simp [stopContext, hc, ismodule, isclass]

/-- C8 (amended): for every scope-boundary cleanup that opens its
connection, the connection is closed only on the completing path — the
enumeration succeeds and every drop either succeeds or raises
`OperationFailure`, which is swallowed per-collection.  If the enumeration
(`d.collection_names()`) or a drop raises any other error, the error is
surfaced to the caller with the connection left open: the open-connection
count stays incremented. -/
theorem C8_amended_close (sys : CleanSys) (s : PluginState) (context : ContextKind)
    (w : World)
    (hscope : (s.clear_after_module = true ∧ context = ContextKind.module) ∨
      (s.clear_after_class = true ∧ context = ContextKind.cls))
    (hconn : sys.conn_ok = true) :
    (sys.list_ok = false →
      (stopContext sys s context w).1.openConns = w.openConns + 1 ∧
        (stopContext sys s context w).2 = some PyError.otherError) ∧
      (∀ e, sys.list_ok = true → dropLoop sys.drop sys.collection_names = some e →
        (stopContext sys s context w).1.openConns = w.openConns + 1 ∧
          (stopContext sys s context w).2 = some e) ∧
      (sys.list_ok = true →
        (∀ col ∈ sys.collection_names, sys.drop col ≠ DropOutcome.raises) →
        (stopContext sys s context w).1.openConns = w.openConns ∧
          (stopContext sys s context w).2 = none) := by
  rw [stopContext_eq_cleanBlock sys s context w hscope]
  refine ⟨?_, ?_, ?_⟩
  · intro hlist
    simp [cleanBlock, hconn, hlist]
  · intro e hlist he
    simp [cleanBlock, hconn, hlist, he]
  · intro hlist h
    have hd := dropLoop_eq_none sys.drop sys.collection_names h
    simp [cleanBlock, hconn, hlist, hd]

/-- C8 amended, exercised on: a module-boundary cleanup of a database
holding "a", "b" and "system.indexes" (the system-collection drop fails
with `OperationFailure`, is swallowed, and the connection is closed); the
same cleanup at a class boundary; and a module-boundary cleanup whose
enumeration raises (error surfaced, connection left open). -/
theorem C8_amended_witness :
    ((stopContext cleanSysSystem stateClearModule ContextKind.module world0).1.openConns =
        world0.openConns ∧
      (stopContext cleanSysSystem stateClearModule ContextKind.module world0).2 = none) ∧
      ((stopContext cleanSysSystem stateClearClass ContextKind.cls world0).1.openConns =
          world0.openConns ∧
        (stopContext cleanSysSystem stateClearClass ContextKind.cls world0).2 = none) ∧
      ((stopContext cleanSysListRaise stateClearModule ContextKind.module world0).1.openConns =
          world0.openConns + 1 ∧
        (stopContext cleanSysListRaise stateClearModule ContextKind.module world0).2 =
          some PyError.otherError) :=
  ⟨(C8_amended_close cleanSysSystem stateClearModule ContextKind.module world0
      (Or.inl ⟨by decide, rfl⟩) (by decide)).2.2 (by decide) (by decide),
    (C8_amended_close cleanSysSystem stateClearClass ContextKind.cls world0
      (Or.inr ⟨by decide, rfl⟩) (by decide)).2.2 (by decide) (by decide),
    (C8_amended_close cleanSysListRaise stateClearModule ContextKind.module world0
      (Or.inl ⟨by decide, rfl⟩) (by decide)).1 (by decide)⟩

/-! ## configure: failed-start behavior -/

/-- C2 (amended): when the process is spawned successfully and a later step
of the start sequence raises (the only such step is the initial connect on
line 226), `configure` does NOT clean up: the error propagates while the
spawned process is still alive, the temporary data directory still exists
and the running flag is set.  There is no try/except around lines 212-226. -/
theorem C2_amended_leak (sys : Sys) (options : Options) (s : PluginState) (w : World)
    (b : String)
    (hme : options.mongoengine = true)
    (hbin : options.mongodb_bin = none)
    (hscan : scan_path sys w "mongod" = some b)
    (hlog : sys.open_ok (sys.expandvars (sys.expanduser options.mongodb_logpath)) = true)
    (hpopen : sys.popen_ok = true)
    (hconn : sys.connect_ok = false) :
    (configure sys options s w).2.2 = some PyError.connectionFailure ∧
      sys.new_pid ∈ (configure sys options s w).2.1.processes ∧
      sys.mkdtemp ∈ (configure sys options s w).2.1.dirs ∧
      (configure sys options s w).1._running = true := by
  simp only [configure, hme, hbin, hscan, hlog, hpopen, hconn, pyTruthy]
  simp
  split <;> simp

/-- C2 amended, exercised at the concrete failed-connect run. -/
theorem C2_amended_witness :
    (configure sysConnFail optsEnabled initState world0).2.2 = some PyError.connectionFailure ∧
      sysConnFail.new_pid ∈ (configure sysConnFail optsEnabled initState world0).2.1.processes ∧
      sysConnFail.mkdtemp ∈ (configure sysConnFail optsEnabled initState world0).2.1.dirs ∧
      (configure sysConnFail optsEnabled initState world0).1._running = true :=
  C2_amended_leak sysConnFail optsEnabled initState world0 "mongod" (by decide) (by decide)
    (by decide) (by decide) (by decide) (by decide)

/-- On every run that reaches the spawn on line 212, the environment of the
resulting world carries the two entries written on lines 219-220 — whether
or not the subsequent connect succeeds. -/
theorem configure_env_after_spawn (sys : Sys) (options : Options) (s : PluginState)
    (w : World) (b : String)
    (hme : options.mongoengine = true)
    (hbin : options.mongodb_bin = none)
    (hscan : scan_path sys w "mongod" = some b)
    (hlog : sys.open_ok (sys.expandvars (sys.expanduser options.mongodb_logpath)) = true)
    (hpopen : sys.popen_ok = true) :
    (configure sys options s w).2.1.env =
      envSet (envSet w.env "TEST_MONGODB"
          ("localhost:" ++ toString (if options.mongodb_port == 0 then get_open_port sys
            else options.mongodb_port)))
        "TEST_MONGODB_DATABASE" (mongo_database sys.sample) := by
  simp only [configure, hme, hbin, hscan, hlog, hpopen, pyTruthy]
  simp
  split <;> simp <;> split <;> simp

/-- C5 (amended): the published connection info is written on lines 219-220,
immediately after the spawn and BEFORE `start` completes its readiness wait
and initial connection — so it is present during the tail of `start` and
remains present after a `start` that fails partway (after spawn); and
`finalize` on a running instance retracts both entries as its first teardown
step, before terminate/wait/rmtree. -/
theorem C5_amended_window :
    (∀ (sys : Sys) (options : Options) (s : PluginState) (w : World) (b : String),
      options.mongoengine = true → options.mongodb_bin = none →
      scan_path sys w "mongod" = some b →
      sys.open_ok (sys.expandvars (sys.expanduser options.mongodb_logpath)) = true →
      sys.popen_ok = true →
      (∃ v, envGet (configure sys options s w).2.1.env "TEST_MONGODB" = some v) ∧
        envGet (configure sys options s w).2.1.env "TEST_MONGODB_DATABASE" =
          some (mongo_database sys.sample)) ∧
      ∀ (fsys : FinSys) (s : PluginState) (w : World),
        s._running = true → envGet w.env "TEST_MONGODB" ≠ none →
        envGet (finalize fsys s w).2.1.env "TEST_MONGODB" = none ∧
          envGet (finalize fsys s w).2.1.env "TEST_MONGODB_DATABASE" = none := by
  have hne : "TEST_MONGODB" ≠ "TEST_MONGODB_DATABASE" := by decide
  constructor
  · intro sys options s w b hme hbin hscan hlog hpopen
    rw [configure_env_after_spawn sys options s w b hme hbin hscan hlog hpopen]
    refine ⟨?_, envGet_envSet_self _ _ _⟩
    exact ⟨_, by rw [envGet_envSet_ne _ _ _ _ hne]; exact envGet_envSet_self _ _ _⟩
  · intro fsys s w hr hp
    cases h1 : envGet w.env "TEST_MONGODB" with
    | none => exact absurd h1 hp
    | some v =>
      cases h2 : envGet (envDel w.env "TEST_MONGODB") "TEST_MONGODB_DATABASE" with
      | none =>
        have hfin : finalize fsys s w =
            (s, { w with env := envDel w.env "TEST_MONGODB" }, some PyError.keyError) := by
          simp [finalize, hr, h1, h2]
        rw [hfin]
        exact ⟨envGet_envDel_self _ _, h2⟩
      | some v2 =>
        have henv : (finalize fsys s w).2.1.env =
            envDel (envDel w.env "TEST_MONGODB") "TEST_MONGODB_DATABASE" := by
          cases hterm : fsys.terminate_raises
          · cases hwait : fsys.wait_raises
            · cases hrm : fsys.rmtree_raises
              · simp [finalize, hr, h1, h2, hterm, hwait, hrm]
              · simp [finalize, hr, h1, h2, hterm, hwait, hrm]
            · simp [finalize, hr, h1, h2, hterm, hwait]
          · simp [finalize, hr, h1, h2, hterm]
        rw [henv]
        constructor
        · rw [envGet_envDel_ne _ _ _ hne]
          exact envGet_envDel_self _ _
        · exact envGet_envDel_self _ _

/-- C5 amended, exercised at the failed-connect run (the info is published
although `start` failed) and at a full stop of the healthy run (the info is
retracted). -/
theorem C5_amended_witness :
    ((∃ v, envGet (configure sysConnFail optsEnabled initState world0).2.1.env
          "TEST_MONGODB" = some v) ∧
        envGet (configure sysConnFail optsEnabled initState world0).2.1.env
          "TEST_MONGODB_DATABASE" = some (mongo_database sysConnFail.sample)) ∧
      (envGet (finalize finSys0 stateRunning worldRunning).2.1.env "TEST_MONGODB" = none ∧
        envGet (finalize finSys0 stateRunning worldRunning).2.1.env
          "TEST_MONGODB_DATABASE" = none) :=
  ⟨C5_amended_window.1 sysConnFail optsEnabled initState world0 "mongod" (by decide)
      (by decide) (by decide) (by decide) (by decide),
    C5_amended_window.2 finSys0 stateRunning worldRunning (by decide) (by decide)⟩

/-- C10 exercised at a concrete sample outcome. -/
theorem C10_name_nodup_witness : (mongo_database sample0).data.Nodup :=
  C10_name_nodup sample0
